import Mathlib

/-!
Verification of the Charms spell-checker core (charmix) against its
natural-language specification.

The definitions below are a shallow embedding of the Rust sources:

* `charms-data/lib.rs` — the data model (`Data`, `App`, `CharmState`,
  `TxInput`, `TxOutput`, `Transaction`, `NormalizedSpell`);
* `charmix/lib.rs` — the native validators (`token::check`,
  `token::is_mint`, `token::is_burn`, `nft::check`, `escrow::check`,
  `parse_escrow_state`);
* `charmix/wasm_bindings.rs` — the JSON-mirror types and the internal
  check functions (`check_spell_internal`, `check_token_internal`,
  `check_nft_internal`, `check_escrow_internal`, `check_bounty_internal`,
  `check_bollar_internal`);
* `charmix/main.rs` — the tag-prefix router of the native binary.

Machine integers are embedded as `Nat`; `u64` summation is embedded with
an explicit wrap modulo `2 ^ 64` at every addition, matching the
two's-complement wrapping semantics of release-mode Rust `Iterator::sum`
on `u64`.  Byte strings are `List Nat`, hex-encoded byte strings of the
JSON mirror are `String`, exactly as in the source.
-/

namespace Charmix

/-- Rust `charms_data::Data`: the closed tagged union of state values. -/
inductive Data where
  | empty : Data
  | bool : Bool → Data
  | u64 : Nat → Data
  | i64 : Int → Data
  | bytes : List Nat → Data
  | str : String → Data
  | list : List Data → Data
  | map : List (String × Data) → Data

/-- Rust `Data::is_empty`: true exactly on the `Empty` variant. -/
def Data.is_empty : Data → Bool
  | Data.empty => true
  | _ => false

/-- Rust `Data::as_u64`: the payload of the `U64` variant, else `None`. -/
def Data.as_u64 : Data → Option Nat
  | Data.u64 v => some v
  | _ => none

/-- Rust `Data::as_bytes`: the payload of the `Bytes` variant, else `None`. -/
def Data.as_bytes : Data → Option (List Nat)
  | Data.bytes v => some v
  | _ => none

/-- Rust `charms_data::App`: application descriptor. -/
structure App where
  tag : String
  vk_hash : List Nat
  params : Data

/-- Rust `charms_data::UtxoRef`. -/
structure UtxoRef where
  txid : List Nat
  vout : Nat

/-- Rust `charms_data::CharmState`: map from app tags to `Data`
(a `BTreeMap`, embedded as an association list with unique keys;
`get` is key lookup). -/
structure CharmState where
  apps : List (String × Data)

/-- Rust `CharmState::get`. -/
def CharmState.get (s : CharmState) (tag : String) : Option Data :=
  s.apps.lookup tag

/-- Rust `charms_data::TxInput`. -/
structure TxInput where
  utxo_ref : UtxoRef
  charm_state : Option CharmState

/-- Rust `charms_data::TxOutput`. -/
structure TxOutput where
  index : Nat
  value : Nat
  script_pubkey : List Nat
  charm_state : Option CharmState

/-- Rust `charms_data::SpellInput`. -/
structure SpellInput where
  utxo_ref : UtxoRef
  charms : Option CharmState

/-- Rust `charms_data::SpellOutput`. -/
structure SpellOutput where
  index : Nat
  charms : Option CharmState

/-- Rust `charms_data::NormalizedSpell`. -/
structure NormalizedSpell where
  version : Nat
  ins : List SpellInput
  outs : List SpellOutput

/-- Rust `charms_data::Transaction`. -/
structure Transaction where
  txid : List Nat
  inputs : List TxInput
  outputs : List TxOutput
  spell : Option NormalizedSpell

/-- The recurring chain `charm_state.as_ref().and_then(|state| state.get(app_tag))`. -/
def state_entry (cs : Option CharmState) (tag : String) : Option Data :=
  cs.bind (fun s => s.get tag)

/-- Release-mode Rust `Iterator::sum::<u64>`: left fold of wrapping
64-bit addition starting from 0. -/
def u64_sum (l : List Nat) : Nat :=
  l.foldl (fun acc v => (acc + v) % 2 ^ 64) 0

namespace token

/-- The list of `u64` values stored under `app_tag` in the inputs' charm
states (the `filter_map` chain of `token::check`), in input order. -/
def input_values (tx : Transaction) (app_tag : String) : List Nat :=
  tx.inputs.filterMap (fun input => (state_entry input.charm_state app_tag).bind Data.as_u64)

/-- The list of `u64` values stored under `app_tag` in the outputs' charm
states, in output order. -/
def output_values (tx : Transaction) (app_tag : String) : List Nat :=
  tx.outputs.filterMap (fun output => (state_entry output.charm_state app_tag).bind Data.as_u64)

/-- `input_sum` of `token::check` / `token::is_burn`. -/
def input_sum (tx : Transaction) (app_tag : String) : Nat :=
  u64_sum (input_values tx app_tag)

/-- `output_sum` of `token::check` / `token::is_burn`. -/
def output_sum (tx : Transaction) (app_tag : String) : Nat :=
  u64_sum (output_values tx app_tag)

/-- Rust `charmix::token::check`: conservation, then the authorization
check on the `Bytes` variant of `x`. -/
def check (app : App) (tx : Transaction) (x : Data) (_w : Data) : Bool :=
  if input_sum tx app.tag ≠ output_sum tx app.tag then
    false
  else
    match x.as_bytes with
    | some auth_data => if auth_data.isEmpty then false else true
    | none => true

/-- Rust `charmix::token::is_mint`: no input carries an entry under the
tag, while some output does. -/
def is_mint (app : App) (tx : Transaction) : Bool :=
  let has_input_tokens := tx.inputs.any (fun input =>
    (input.charm_state.map (fun state => (state.get app.tag).isSome)).getD false)
  let has_output_tokens := tx.outputs.any (fun output =>
    (output.charm_state.map (fun state => (state.get app.tag).isSome)).getD false)
  !has_input_tokens && has_output_tokens

/-- Rust `charmix::token::is_burn`: `input_sum > output_sum`. -/
def is_burn (app : App) (tx : Transaction) : Bool :=
  decide (output_sum tx app.tag < input_sum tx app.tag)

end token

namespace nft

/-- The input NFT identifiers (`input_nfts` of `nft::check`), in input order. -/
def input_nfts (tx : Transaction) (app_tag : String) : List (List Nat) :=
  tx.inputs.filterMap (fun input => (state_entry input.charm_state app_tag).bind Data.as_bytes)

/-- The output NFT identifiers (`output_nfts` of `nft::check`), in output order. -/
def output_nfts (tx : Transaction) (app_tag : String) : List (List Nat) :=
  tx.outputs.filterMap (fun output => (state_entry output.charm_state app_tag).bind Data.as_bytes)

/-- The duplicate-scanning loop of `nft::check`: walks the list keeping a
`seen` accumulator, returns `true` as soon as an element already seen
recurs. -/
def contains_duplicate (seen : List (List Nat)) : List (List Nat) → Bool
  | [] => false
  | nft :: rest =>
    if seen.contains nft then true else contains_duplicate (seen ++ [nft]) rest

/-- Rust `charmix::nft::check`: no duplicate output identifier, and every
output identifier absent from the inputs requires `x` not to be `Empty`. -/
def check (app : App) (tx : Transaction) (x : Data) (_w : Data) : Bool :=
  let ins := input_nfts tx app.tag
  let outs := output_nfts tx app.tag
  if contains_duplicate [] outs then
    false
  else if outs.any (fun nft => !(ins.contains nft) && x.is_empty) then
    false
  else
    true

end nft

namespace escrow

/-- Rust `charmix::escrow::EscrowState`. -/
inductive EscrowState where
  | Created : EscrowState
  | Funded : EscrowState
  | MilestoneCompleted : Nat → EscrowState
  | Released : EscrowState
  | Disputed : EscrowState
  | Refunded : EscrowState
deriving DecidableEq

/-- Rust `charmix::escrow::parse_escrow_state`: decode a `u64` state
value; the milestone payload is truncated to `u32` (`(n - 100) as u32`). -/
def parse_escrow_state (data : Data) : Option EscrowState :=
  match data.as_u64 with
  | none => none
  | some n =>
    match n with
    | 0 => some EscrowState.Created
    | 1 => some EscrowState.Funded
    | 2 => some EscrowState.Released
    | 3 => some EscrowState.Disputed
    | 4 => some EscrowState.Refunded
    | n => if n ≥ 100 then some (EscrowState.MilestoneCompleted ((n - 100) % 2 ^ 32)) else none

/-- `current_state` of `escrow::check`: first input whose entry under the
tag decodes to a state. -/
def current_state (tx : Transaction) (app_tag : String) : Option EscrowState :=
  tx.inputs.findSome? (fun input => (state_entry input.charm_state app_tag).bind parse_escrow_state)

/-- `next_state` of `escrow::check`: first output whose entry under the
tag decodes to a state. -/
def next_state (tx : Transaction) (app_tag : String) : Option EscrowState :=
  tx.outputs.findSome? (fun output => (state_entry output.charm_state app_tag).bind parse_escrow_state)

/-- The `match (current_state, next_state)` arm table of `escrow::check`. -/
def transition_valid : Option EscrowState → Option EscrowState → Bool
  | none, some EscrowState.Created => true
  | some EscrowState.Created, some EscrowState.Funded => true
  | some EscrowState.Funded, some (EscrowState.MilestoneCompleted _) => true
  | some (EscrowState.MilestoneCompleted _), some EscrowState.Released => true
  | some EscrowState.Funded, some EscrowState.Disputed => true
  | some EscrowState.Disputed, some EscrowState.Refunded => true
  | some EscrowState.Disputed, some EscrowState.Released => true
  | _, _ => false

/-- Rust `charmix::escrow::check`: accept exactly the listed transitions;
`x` and `w` are received but unused by the source. -/
def check (app : App) (tx : Transaction) (_x : Data) (_w : Data) : Bool :=
  transition_valid (current_state tx app.tag) (next_state tx app.tag)

end escrow

/-- Rust `str::starts_with`, applied to app tags. -/
def starts_with (s p : String) : Bool :=
  p.data.isPrefixOf s.data

/-- Rust `charmix::main`: the native binary's tag-prefix router.  An
unmatched tag yields the verdict `false` (the `_` arm). -/
def route (app : App) (tx : Transaction) (x : Data) (w : Data) : Bool :=
  if starts_with app.tag "token:" then token.check app tx x w
  else if starts_with app.tag "nft:" then nft.check app tx x w
  else if starts_with app.tag "escrow:" then escrow.check app tx x w
  else false

namespace wasm

/-- Rust `charmix::wasm_bindings::WasmData`: the JSON mirror of `Data`;
byte strings are hex-encoded `String`s. -/
inductive WasmData where
  | Empty : WasmData
  | Bool : Bool → WasmData
  | U64 : Nat → WasmData
  | I64 : Int → WasmData
  | Bytes : String → WasmData
  | Str : String → WasmData
  | List : List WasmData → WasmData
  | Map : List (String × WasmData) → WasmData

/-- Rust `WasmApp`. -/
structure WasmApp where
  tag : String
  vk_hash : String
  params : Option WasmData

/-- Rust `WasmUtxoRef`. -/
structure WasmUtxoRef where
  txid : String
  vout : Nat

/-- Rust `WasmCharmState` (`BTreeMap` of app tags, embedded as an
association list with unique keys). -/
structure WasmCharmState where
  apps : List (String × WasmData)

/-- Rust `WasmTxInput`. -/
structure WasmTxInput where
  utxo_ref : WasmUtxoRef
  charm_state : Option WasmCharmState

/-- Rust `WasmTxOutput`. -/
structure WasmTxOutput where
  index : Nat
  value : Nat
  script_pubkey : String
  charm_state : Option WasmCharmState

/-- Rust `WasmTransaction`. -/
structure WasmTransaction where
  txid : String
  inputs : List WasmTxInput
  outputs : List WasmTxOutput

/-- Rust `WasmCheckResult`. -/
structure WasmCheckResult where
  valid : Bool
  spell_type : String
  input_sum : Option Nat
  output_sum : Option Nat
  is_mint : Option Bool
  is_burn : Option Bool
  current_state : Option String
  next_state : Option String
  state_transition_valid : Option Bool
  nft_ids : Option (List String)
  duplicate_nfts : Option (List String)
  errors : List String

/-- Rust `impl Default for WasmCheckResult`. -/
def default_result : WasmCheckResult :=
  { valid := false, spell_type := "unknown", input_sum := none, output_sum := none,
    is_mint := none, is_burn := none, current_state := none, next_state := none,
    state_transition_valid := none, nft_ids := none, duplicate_nfts := none,
    errors := [] }

/-- Rust `wasm_bindings::get_state_data`. -/
def get_state_data (state : Option WasmCharmState) (app_tag : String) : Option WasmData :=
  state.bind (fun s => s.apps.lookup app_tag)

/-- Rust `wasm_bindings::data_as_u64`. -/
def data_as_u64 : Option WasmData → Option Nat
  | some (WasmData.U64 v) => some v
  | _ => none

/-- Rust `wasm_bindings::data_as_bytes`. -/
def data_as_bytes : Option WasmData → Option String
  | some (WasmData.Bytes s) => some s
  | _ => none

/-- Rust `wasm_bindings::check_token_internal`. -/
def check_token_internal (app : WasmApp) (tx : WasmTransaction) (x : WasmData) : WasmCheckResult :=
  let app_tag := app.tag
  let input_sum := u64_sum (tx.inputs.filterMap
    (fun input => data_as_u64 (get_state_data input.charm_state app_tag)))
  let output_sum := u64_sum (tx.outputs.filterMap
    (fun output => data_as_u64 (get_state_data output.charm_state app_tag)))
  let conservation_errors :=
    if input_sum ≠ output_sum then
      ["Token conservation failed: input=" ++ toString input_sum
        ++ " != output=" ++ toString output_sum]
    else []
  let auth_errors :=
    match x with
    | WasmData.Bytes s => if s.isEmpty then ["Empty authorization data"] else []
    | _ => []
  let errors := conservation_errors ++ auth_errors
  let is_mint := decide (input_sum = 0 ∧ 0 < output_sum)
  let is_burn := decide (output_sum < input_sum)
  { default_result with
    valid := errors.isEmpty, spell_type := "token",
    input_sum := some input_sum, output_sum := some output_sum,
    is_mint := some is_mint, is_burn := some is_burn, errors := errors }

/-- The duplicate-collecting loop of `check_nft_internal` (`HashSet`
membership embedded as list membership of the already-seen identifiers). -/
def collect_duplicates (seen : List String) : List String → List String
  | [] => []
  | nft :: rest =>
    if seen.contains nft then nft :: collect_duplicates seen rest
    else collect_duplicates (seen ++ [nft]) rest

/-- Rust `wasm_bindings::check_nft_internal`. -/
def check_nft_internal (app : WasmApp) (tx : WasmTransaction) (x : WasmData) : WasmCheckResult :=
  let app_tag := app.tag
  let input_nfts := tx.inputs.filterMap
    (fun input => data_as_bytes (get_state_data input.charm_state app_tag))
  let output_nfts := tx.outputs.filterMap
    (fun output => data_as_bytes (get_state_data output.charm_state app_tag))
  let duplicate_nfts := collect_duplicates [] output_nfts
  let dup_errors := duplicate_nfts.map (fun nft => "Duplicate NFT in outputs: " ++ nft)
  let mint_errors := output_nfts.filterMap (fun nft =>
    if !(input_nfts.contains nft) then
      match x with
      | WasmData.Empty => some ("NFT mint without authorization: " ++ nft)
      | _ => none
    else none)
  let errors := dup_errors ++ mint_errors
  { default_result with
    valid := errors.isEmpty, spell_type := "nft",
    nft_ids := some output_nfts, duplicate_nfts := some duplicate_nfts,
    errors := errors }

/-- Rust `wasm_bindings::check_escrow_internal`: note that, unlike the
native `escrow::check`, the mirror compares raw `u64` state values
against the table `[(None,0),(0,1),(1,2),(1,3),(3,4),(3,2)]` and has no
milestone handling. -/
def check_escrow_internal (app : WasmApp) (tx : WasmTransaction) : WasmCheckResult :=
  let app_tag := app.tag
  let state_names : List String := ["Created", "Funded", "Released", "Disputed", "Refunded"]
  let current_state := tx.inputs.findSome?
    (fun input => data_as_u64 (get_state_data input.charm_state app_tag))
  let next_state := tx.outputs.findSome?
    (fun output => data_as_u64 (get_state_data output.charm_state app_tag))
  let current_name := (current_state.bind (fun s => state_names.get? s)).getD "None"
  let next_name := (next_state.bind (fun s => state_names.get? s)).getD "None"
  let valid_transitions : List (Option Nat × Option Nat) :=
    [(none, some 0), (some 0, some 1), (some 1, some 2),
     (some 1, some 3), (some 3, some 4), (some 3, some 2)]
  let is_valid := valid_transitions.any
    (fun ft => ft.1 == current_state && ft.2 == next_state)
  let errors :=
    if is_valid then []
    else ["Invalid escrow transition: " ++ current_name ++ " -> " ++ next_name]
  { default_result with
    valid := errors.isEmpty, spell_type := "escrow",
    current_state := some current_name, next_state := some next_name,
    state_transition_valid := some is_valid, errors := errors }

/-- Rust `wasm_bindings::check_bounty_internal`. -/
def check_bounty_internal (app : WasmApp) (tx : WasmTransaction) (_x : WasmData) : WasmCheckResult :=
  let app_tag := app.tag
  let state_names : List String := ["Open", "InProgress", "Completed", "Cancelled", "Disputed"]
  let current_state := tx.inputs.findSome?
    (fun input => data_as_u64 (get_state_data input.charm_state app_tag))
  let next_state := tx.outputs.findSome?
    (fun output => data_as_u64 (get_state_data output.charm_state app_tag))
  let current_name := (current_state.bind (fun s => state_names.get? s)).getD "None"
  let next_name := (next_state.bind (fun s => state_names.get? s)).getD "None"
  let valid_transitions : List (Option Nat × Option Nat) :=
    [(none, some 0), (some 0, some 1), (some 1, some 2),
     (some 0, some 3), (some 1, some 4), (some 4, some 2), (some 4, some 3)]
  let is_valid := valid_transitions.any
    (fun ft => ft.1 == current_state && ft.2 == next_state)
  let errors :=
    if is_valid then []
    else ["Invalid bounty transition: " ++ current_name ++ " -> " ++ next_name]
  { default_result with
    valid := errors.isEmpty, spell_type := "bounty",
    current_state := some current_name, next_state := some next_name,
    state_transition_valid := some is_valid, errors := errors }

/-- Rust `wasm_bindings::check_bollar_internal`. -/
def check_bollar_internal (app : WasmApp) (tx : WasmTransaction) (x : WasmData) : WasmCheckResult :=
  { check_token_internal app tx x with spell_type := "bollar" }

/-- Rust `wasm_bindings::check_spell_internal`: prefix dispatch with a
defined `unknown` rejection result for unmatched tags. -/
def check_spell_internal (app : WasmApp) (tx : WasmTransaction) (x : WasmData) (_w : WasmData) : WasmCheckResult :=
  if starts_with app.tag "token:" then check_token_internal app tx x
  else if starts_with app.tag "nft:" then check_nft_internal app tx x
  else if starts_with app.tag "escrow:" then check_escrow_internal app tx
  else if starts_with app.tag "bounty:" then check_bounty_internal app tx x
  else if starts_with app.tag "bollar:" then check_bollar_internal app tx x
  else
    { default_result with
      valid := false, spell_type := "unknown",
      errors := ["Unknown app type: " ++ app.tag] }

end wasm

/-! ### Shared helper lemmas -/

theorem map_getD_isSome (cs : Option CharmState) (t : String) :
    (cs.map (fun s => (s.get t).isSome)).getD false = (state_entry cs t).isSome := by
  cases cs <;> rfl

theorem is_mint_iff (app : App) (tx : Transaction) :
    token.is_mint app tx = true ↔
      ((∀ i ∈ tx.inputs, state_entry i.charm_state app.tag = none) ∧
        ∃ o ∈ tx.outputs, state_entry o.charm_state app.tag ≠ none) := by
  unfold token.is_mint
  simp only [map_getD_isSome, Bool.and_eq_true, Bool.not_eq_true', List.any_eq_false,
    List.any_eq_true, Bool.not_eq_true, Option.isSome_iff_ne_none, ne_eq, not_not]

theorem is_burn_iff (app : App) (tx : Transaction) :
    token.is_burn app tx = true ↔
      token.output_sum tx app.tag < token.input_sum tx app.tag := by
  simp [token.is_burn]

theorem input_values_nil_of_no_entry (app : App) (tx : Transaction)
    (h : ∀ i ∈ tx.inputs, state_entry i.charm_state app.tag = none) :
    token.input_values tx app.tag = [] := by
  rw [token.input_values, List.filterMap_eq_nil_iff]
  intro i hi
  rw [h i hi]
  rfl

/-! ### Claim theorems -/

/-- C1: `token::check` accepts iff the u64 input sum under the app tag
equals the u64 output sum and the authorization datum is not the `Bytes`
variant holding an empty byte string; absence of `x` (`Empty`) or a
non-`Bytes` `x` is never by itself a reason to reject. -/
theorem C1_token_check_accepts_iff (app : App) (tx : Transaction) (x w : Data) :
    token.check app tx x w = true ↔
      (token.input_sum tx app.tag = token.output_sum tx app.tag ∧
        x ≠ Data.bytes []) := by
  unfold token.check
  by_cases h : token.input_sum tx app.tag = token.output_sum tx app.tag
  · cases x <;> simp [h, Data.as_bytes, List.isEmpty_iff]
  · simp [h]

/-- C7 counterexample: a transaction whose only tagged entry is an output
holding `U64 0` is classified as a mint by `token::is_mint`, even though
its output sum is 0 — refuting `isMint ⇔ inputSum = 0 ∧ outputSum > 0`. -/
theorem C7_counterexample_mint_with_zero_output :
    token.is_mint { tag := "token:T", vk_hash := List.replicate 32 0, params := Data.empty }
        { txid := List.replicate 32 0, inputs := [],
          outputs := [{ index := 0, value := 546, script_pubkey := [],
                        charm_state := some { apps := [("token:T", Data.u64 0)] } }],
          spell := none } = true ∧
      ¬(token.input_sum
            { txid := List.replicate 32 0, inputs := [],
              outputs := [{ index := 0, value := 546, script_pubkey := [],
                            charm_state := some { apps := [("token:T", Data.u64 0)] } }],
              spell := none } "token:T" = 0 ∧
          0 < token.output_sum
            { txid := List.replicate 32 0, inputs := [],
              outputs := [{ index := 0, value := 546, script_pubkey := [],
                            charm_state := some { apps := [("token:T", Data.u64 0)] } }],
              spell := none } "token:T") := by
  decide

/-- C7 amended: `token::is_mint` is presence-based — true iff no input
carries a state entry under the tag while some output does (regardless of
the entries' values or of the sums); `token::is_burn` is true iff
`inputSum > outputSum`, as claimed. -/
theorem C7_mint_burn_classification (app : App) (tx : Transaction) :
    (token.is_mint app tx = true ↔
      ((∀ i ∈ tx.inputs, state_entry i.charm_state app.tag = none) ∧
        ∃ o ∈ tx.outputs, state_entry o.charm_state app.tag ≠ none)) ∧
    (token.is_burn app tx = true ↔
      token.output_sum tx app.tag < token.input_sum tx app.tag) :=
  ⟨is_mint_iff app tx, is_burn_iff app tx⟩

/-- C8: `token::is_mint` and `token::is_burn` are never simultaneously
true for the same application and transaction. -/
theorem C8_mint_burn_not_both (app : App) (tx : Transaction) :
    (token.is_mint app tx && token.is_burn app tx) = false := by
  cases h : token.is_mint app tx
  · simp
  · have h' := (is_mint_iff app tx).mp h
    have hnil : token.input_values tx app.tag = [] :=
      input_values_nil_of_no_entry app tx h'.1
    have hzero : token.input_sum tx app.tag = 0 := by
      rw [token.input_sum, hnil]
      rfl
    simp [token.is_burn, hzero]

/-- The input side of the C2 overflow scenario: two inputs holding
`2^63` and `2^63 + 1` under the tag, one output holding `1`. -/
def c2_tx : Transaction :=
  { txid := List.replicate 32 0,
    inputs :=
      [{ utxo_ref := { txid := List.replicate 32 0, vout := 0 },
         charm_state := some { apps := [("token:T", Data.u64 (2 ^ 63))] } },
       { utxo_ref := { txid := List.replicate 32 0, vout := 1 },
         charm_state := some { apps := [("token:T", Data.u64 (2 ^ 63 + 1))] } }],
    outputs :=
      [{ index := 0, value := 546, script_pubkey := [],
         charm_state := some { apps := [("token:T", Data.u64 1)] } }],
    spell := none }

/-- C2: the summation in `token::check` wraps modulo `2^64` instead of
rejecting — a transaction whose true input total is `2^64 + 1` (beyond
the u64 ceiling) is accepted against an output total of `1`. -/
theorem C2_token_check_accepts_beyond_u64_ceiling :
    token.check { tag := "token:T", vk_hash := List.replicate 32 0, params := Data.empty }
        c2_tx (Data.bytes [1]) Data.empty = true ∧
      2 ^ 64 ≤ (token.input_values c2_tx "token:T").sum ∧
      (token.output_values c2_tx "token:T").sum = 1 := by
  refine ⟨?_, ?_, ?_⟩ <;> decide

/-- The escrow transition table exactly as the specification states it:
the seven legal (currentState, nextState) pairs. -/
def escrow_pair_allowed (cur next : Option escrow.EscrowState) : Prop :=
  (cur = none ∧ next = some escrow.EscrowState.Created) ∨
  (cur = some escrow.EscrowState.Created ∧ next = some escrow.EscrowState.Funded) ∨
  (∃ m, cur = some escrow.EscrowState.Funded ∧
    next = some (escrow.EscrowState.MilestoneCompleted m)) ∨
  (∃ m, cur = some (escrow.EscrowState.MilestoneCompleted m) ∧
    next = some escrow.EscrowState.Released) ∨
  (cur = some escrow.EscrowState.Funded ∧ next = some escrow.EscrowState.Disputed) ∨
  (cur = some escrow.EscrowState.Disputed ∧ next = some escrow.EscrowState.Refunded) ∨
  (cur = some escrow.EscrowState.Disputed ∧ next = some escrow.EscrowState.Released)

theorem transition_valid_iff (cur next : Option escrow.EscrowState) :
    escrow.transition_valid cur next = true ↔ escrow_pair_allowed cur next := by
  rcases cur with _ | (_ | _ | m | _ | _ | _) <;>
    rcases next with _ | (_ | _ | k | _ | _ | _) <;>
      simp [escrow.transition_valid, escrow_pair_allowed]

/-- C3: `escrow::check` accepts exactly the seven transition pairs of the
specification's table, the current/next states being the first decodable
input/output entries under the tag; in particular no accepted pair has
`Released` or `Refunded` as its source. -/
theorem C3_escrow_check_transition_table (app : App) (tx : Transaction) (x w : Data) :
    (escrow.check app tx x w = true ↔
      escrow_pair_allowed (escrow.current_state tx app.tag) (escrow.next_state tx app.tag)) ∧
    ((escrow.current_state tx app.tag = some escrow.EscrowState.Released ∨
        escrow.current_state tx app.tag = some escrow.EscrowState.Refunded) →
      escrow.check app tx x w = false) := by
  refine ⟨transition_valid_iff _ _, fun h => ?_⟩
  unfold escrow.check
  rcases h with h | h <;> rw [h] <;>
    rcases escrow.next_state tx app.tag with _ | (_ | _ | m | _ | _ | _) <;> rfl

/-- C3 witness: the creation transition `(None, Created)` on a concrete
transaction is accepted. -/
theorem C3_escrow_check_transition_table_witness :
    escrow.check { tag := "escrow:E", vk_hash := List.replicate 32 0, params := Data.empty }
      { txid := List.replicate 32 0, inputs := [],
        outputs := [{ index := 0, value := 546, script_pubkey := [],
                      charm_state := some { apps := [("escrow:E", Data.u64 0)] } }],
        spell := none } Data.empty Data.empty = true :=
  (C3_escrow_check_transition_table _ _ _ _).1.mpr (Or.inl ⟨rfl, rfl⟩)

theorem contains_duplicate_eq_false_iff (seen : List (List Nat)) (l : List (List Nat)) :
    nft.contains_duplicate seen l = false ↔ l.Nodup ∧ ∀ a ∈ l, a ∉ seen := by
  induction l generalizing seen with
  | nil => simp [nft.contains_duplicate]
  | cons x rest ih =>
    simp only [nft.contains_duplicate]
    cases hx : seen.contains x with
    | true =>
      have hxs : x ∈ seen := by simpa using hx
      simp only [if_pos rfl, hx]
      constructor
      · intro h
        exact absurd h (by simp)
      · rintro ⟨-, hall⟩
        exact absurd hxs (hall x (List.mem_cons_self x rest))
    | false =>
      have hxs : x ∉ seen := by simpa using hx
      simp only [hx, Bool.false_eq_true, if_false]
      rw [ih]
      simp only [List.nodup_cons]
      constructor
      · rintro ⟨hnd, hall⟩
        refine ⟨⟨fun hxr => ?_, hnd⟩, fun a ha => ?_⟩
        · exact hall x hxr (by simp)
        · rcases List.mem_cons.mp ha with rfl | ha'
          · exact hxs
          · intro has
            exact hall a ha' (by simp [has])
      · rintro ⟨⟨hxr, hnd⟩, hall⟩
        refine ⟨hnd, fun a ha hmem => ?_⟩
        rcases List.mem_append.mp hmem with h1 | h2
        · exact hall a (List.mem_cons_of_mem x ha) h1
        · rcases List.mem_singleton.mp h2 with rfl
          exact hxr ha

theorem nft_check_eq_true_iff (app : App) (tx : Transaction) (x w : Data) :
    nft.check app tx x w = true ↔
      (nft.contains_duplicate [] (nft.output_nfts tx app.tag) = false ∧
        (nft.output_nfts tx app.tag).any
          (fun n => !((nft.input_nfts tx app.tag).contains n) && x.is_empty) = false) := by
  unfold nft.check
  cases hd : nft.contains_duplicate [] (nft.output_nfts tx app.tag) <;>
    cases ha : (nft.output_nfts tx app.tag).any
        (fun n => !((nft.input_nfts tx app.tag).contains n) && x.is_empty) <;>
      simp only [hd, ha] <;> decide

/-- C5: acceptance by `nft::check` requires the list of output
identifiers under the tag to contain no duplicates; any duplicated
identifier forces rejection. -/
theorem C5_nft_check_requires_nodup (app : App) (tx : Transaction) (x w : Data)
    (h : nft.check app tx x w = true) :
    (nft.output_nfts tx app.tag).Nodup :=
  ((contains_duplicate_eq_false_iff [] _).mp ((nft_check_eq_true_iff app tx x w).mp h).1).1

/-- C5 witness: a concrete pass-through transfer is accepted and its
output identifier list is duplicate-free. -/
theorem C5_nft_check_requires_nodup_witness :
    (nft.output_nfts
      { txid := List.replicate 32 0,
        inputs := [{ utxo_ref := { txid := List.replicate 32 0, vout := 0 },
                     charm_state := some { apps := [("nft:N", Data.bytes [1, 2])] } }],
        outputs := [{ index := 0, value := 546, script_pubkey := [],
                      charm_state := some { apps := [("nft:N", Data.bytes [1, 2])] } }],
        spell := none } "nft:N").Nodup :=
  C5_nft_check_requires_nodup
    { tag := "nft:N", vk_hash := List.replicate 32 0, params := Data.empty } _
    Data.empty Data.empty (by decide)

/-- C6: an output identifier absent from the inputs (a mint) forces the
authorization datum to be non-`Empty` for acceptance; conversely, when
every output identifier is a pass-through and there are no duplicates,
`nft::check` accepts for every authorization datum, `Empty` included. -/
theorem C6_nft_mint_authorization (app : App) (tx : Transaction) (w : Data) :
    (∀ x : Data,
      (∃ n ∈ nft.output_nfts tx app.tag, n ∉ nft.input_nfts tx app.tag) →
        nft.check app tx x w = true → x ≠ Data.empty) ∧
    ((∀ n ∈ nft.output_nfts tx app.tag, n ∈ nft.input_nfts tx app.tag) →
      (nft.output_nfts tx app.tag).Nodup →
        ∀ x : Data, nft.check app tx x w = true) := by
  constructor
  · rintro x ⟨n, hn, hni⟩ hcheck rfl
    have ha := ((nft_check_eq_true_iff app tx Data.empty w).mp hcheck).2
    have hfalse := (List.any_eq_false.mp ha) n hn
    simp [Data.is_empty, hni] at hfalse
  · intro hall hnd x
    rw [nft_check_eq_true_iff]
    refine ⟨(contains_duplicate_eq_false_iff [] _).mpr ⟨hnd, by simp⟩, ?_⟩
    rw [List.any_eq_false]
    intro n hn
    have hmem : n ∈ nft.input_nfts tx app.tag := hall n hn
    simp [hmem]

/-- C6 witness: a concrete pass-through transfer with `Empty`
authorization is accepted. -/
theorem C6_nft_mint_authorization_witness :
    nft.check { tag := "nft:N", vk_hash := List.replicate 32 0, params := Data.empty }
      { txid := List.replicate 32 0,
        inputs := [{ utxo_ref := { txid := List.replicate 32 0, vout := 0 },
                     charm_state := some { apps := [("nft:N", Data.bytes [7])] } }],
        outputs := [{ index := 0, value := 546, script_pubkey := [],
                      charm_state := some { apps := [("nft:N", Data.bytes [7])] } }],
        spell := none } Data.empty Data.empty = true :=
  (C6_nft_mint_authorization _ _ Data.empty).2 (by decide) (by decide) Data.empty

/-- C10: the verdict of `escrow::check` does not depend on the
authorization datum or the witness datum. -/
theorem C10_escrow_check_ignores_auth_and_witness (app : App) (tx : Transaction)
    (x1 x2 w1 w2 : Data) :
    escrow.check app tx x1 w1 = escrow.check app tx x2 w2 := rfl

/-- The native side of the C4 divergence scenario: input state `Funded`
(`U64 1`), output state `Released` (`U64 2`) under tag `escrow:E`. -/
def c4_tx_native : Transaction :=
  { txid := List.replicate 32 0,
    inputs := [{ utxo_ref := { txid := List.replicate 32 0, vout := 0 },
                 charm_state := some { apps := [("escrow:E", Data.u64 1)] } }],
    outputs := [{ index := 0, value := 546, script_pubkey := [],
                  charm_state := some { apps := [("escrow:E", Data.u64 2)] } }],
    spell := none }

/-- The JSON-mirror image of `c4_tx_native` under the documented field
correspondence (same tag, same `U64` state values, hex-string ids). -/
def c4_tx_mirror : wasm.WasmTransaction :=
  { txid := "0000000000000000000000000000000000000000000000000000000000000000",
    inputs := [{ utxo_ref :=
                   { txid := "0000000000000000000000000000000000000000000000000000000000000000",
                     vout := 0 },
                 charm_state := some { apps := [("escrow:E", wasm.WasmData.U64 1)] } }],
    outputs := [{ index := 0, value := 546, script_pubkey := "",
                  charm_state := some { apps := [("escrow:E", wasm.WasmData.U64 2)] } }] }

/-- C4: the JSON-mirror escrow checker and the native `escrow::check`
disagree on corresponding transactions: on the `Funded → Released`
transition the native checker rejects while the mirror accepts (the
mirror's table lists `(Some(1), Some(2))` and lacks milestone states). -/
theorem C4_escrow_mirror_divergence :
    escrow.check { tag := "escrow:E", vk_hash := List.replicate 32 0, params := Data.empty }
        c4_tx_native Data.empty Data.empty = false ∧
      (wasm.check_escrow_internal
        { tag := "escrow:E",
          vk_hash := "0000000000000000000000000000000000000000000000000000000000000000",
          params := none }
        c4_tx_mirror).valid = true := by
  refine ⟨?_, ?_⟩ <;> decide

/-- C9: a tag matching none of the recognized namespaces produces the
defined reject verdict: in the JSON-mirror dispatcher the result is
invalid with a reason naming the unrecognized tag, and in the native
binary's router the verdict is `false`. -/
theorem C9_unknown_tag_rejects (tag : String)
    (h1 : starts_with tag "token:" = false) (h2 : starts_with tag "nft:" = false)
    (h3 : starts_with tag "escrow:" = false) (h4 : starts_with tag "bounty:" = false)
    (h5 : starts_with tag "bollar:" = false) :
    (∀ (app : wasm.WasmApp) (tx : wasm.WasmTransaction) (x w : wasm.WasmData),
      app.tag = tag →
        (wasm.check_spell_internal app tx x w).valid = false ∧
          (wasm.check_spell_internal app tx x w).errors = ["Unknown app type: " ++ tag]) ∧
    (∀ (app : App) (tx : Transaction) (x w : Data),
      app.tag = tag → route app tx x w = false) := by
  constructor
  · rintro app tx x w rfl
    constructor <;>
      simp [wasm.check_spell_internal, wasm.default_result, h1, h2, h3, h4, h5]
  · rintro app tx x w rfl
    simp [route, h1, h2, h3]

/-- C9 witness: the dispatcher and the router at the concrete
unrecognized tag `xyz:1`. -/
theorem C9_unknown_tag_rejects_witness :
    (wasm.check_spell_internal { tag := "xyz:1", vk_hash := "", params := none }
        { txid := "", inputs := [], outputs := [] }
        wasm.WasmData.Empty wasm.WasmData.Empty).valid = false ∧
      route { tag := "xyz:1", vk_hash := [], params := Data.empty }
        { txid := [], inputs := [], outputs := [], spell := none }
        Data.empty Data.empty = false := by
  constructor
  · exact ((C9_unknown_tag_rejects "xyz:1" (by decide) (by decide) (by decide) (by decide)
      (by decide)).1 _ _ _ _ rfl).1
  · exact (C9_unknown_tag_rejects "xyz:1" (by decide) (by decide) (by decide) (by decide)
      (by decide)).2 _ _ _ _ rfl

end Charmix
